import Mathlib

/-!
Verification of the UI5 web-components sources against their
natural-language specification.

The development shallowly embeds the two source artifacts:

* `src/packages/main/src/Toast.ts` — the `ui5-toast` component.  Its
  reactive fields (`duration`, `open`, `hover`, `domRendered`, `_reopen`)
  become a `Toast` structure; each lifecycle method and event handler
  becomes a pure state transformer.  The `requestAnimationFrame` callback
  scheduled by `_initiateOpening` is modelled by a `pendingFrames` counter
  plus a `frameCallback` transformer that fires one pending callback.
  JavaScript numeric arithmetic in the `styles` getter is modelled over
  the exact rationals `ℚ`.

* `src/packages/fiori/test/specs/UploadCollection.spec.js` — the browser
  test suite for `ui5-upload-collection`.  The component implementation
  itself is not among the sources, so the pieces of behaviour the claims
  need (edit-in-place file-extension handling, attribute forwarding,
  delete handling, cancel-of-rename) are modelled from the specification
  and marked as such on each definition.
-/

set_option autoImplicit false

/-- Styles computed by the `styles` getter of `Toast.ts`, restricted to the
fields the claims are about.  A CSS declaration that the getter renders as
the empty string is modelled as `none`; a `` `${x}ms` `` declaration is
modelled as `some x` with `x : ℚ`. -/
structure ToastStyles where
  transitionDuration : Option ℚ
  transitionDelay : Option ℚ
  opacityZero : Bool
  deriving Repr, DecidableEq

/-- State of the `ui5-toast` component (`Toast.ts`): the `duration`
property (validated as `Integer`), the private boolean properties `open`,
`hover` and `domRendered`, the plain field `_reopen`, and `pendingFrames`,
the number of `requestAnimationFrame` callbacks scheduled by
`_initiateOpening` that have not fired yet. -/
structure Toast where
  duration : Int
  «open» : Bool
  hover : Bool
  domRendered : Bool
  _reopen : Bool
  pendingFrames : Nat
  deriving Repr, DecidableEq

/-- The state produced by the constructor of `Toast.ts`: `_reopen` is set
to `false`, every boolean property defaults to `false`, `duration`
defaults to `3000`, and no animation-frame callback is scheduled. -/
def Toast.init : Toast :=
  { duration := 3000, «open» := false, hover := false, domRendered := false
    _reopen := false, pendingFrames := 0 }

/-- `get effectiveDuration()` of `Toast.ts`: if `duration` is lower than
the minimum supported duration (the constant `MIN_DURATION = 500`), the
getter returns that minimum, otherwise `duration` itself. -/
def Toast.effectiveDuration (s : Toast) : Int :=
  if s.duration < 500 then 500 else s.duration

/-- `get styles()` of `Toast.ts`.  The transition duration is a third of
the effective duration but at most `MAX_DURATION = 1000`; the transition
delay is the effective duration minus the transition duration; the opacity
is forced to `0` exactly when the toast is open and not hovered.  All
three are rendered only while `open` is `true`; otherwise the getter
yields the empty string, modelled as `none` / `false`. -/
def Toast.styles (s : Toast) : ToastStyles :=
  let transitionDuration : ℚ := min ((s.effectiveDuration : ℚ) / 3) 1000
  { transitionDuration := if s.«open» then some transitionDuration else none
    transitionDelay :=
      if s.«open» then some ((s.effectiveDuration : ℚ) - transitionDuration) else none
    opacityZero := s.«open» && !s.hover }

/-- `_initiateOpening()` of `Toast.ts`: sets `domRendered` to `true` and
requests an animation frame whose callback will set `open` to `true`. -/
def Toast.initiateOpening (s : Toast) : Toast :=
  { s with domRendered := true, pendingFrames := s.pendingFrames + 1 }

/-- The callback passed to `requestAnimationFrame` by `_initiateOpening`:
when a requested frame is pending, it fires, setting `open` to `true`.
When nothing is pending there is no callback to run and the state is
unchanged. -/
def Toast.frameCallback (s : Toast) : Toast :=
  if s.pendingFrames = 0 then s
  else { s with «open» := true, pendingFrames := s.pendingFrames - 1 }

/-- `show()` of `Toast.ts`: when the toast is already open, it sets the
`_reopen` flag and closes (`open := false`) so that the `onAfterRendering`
hook re-opens it; otherwise it initiates opening directly. -/
def Toast.show (s : Toast) : Toast :=
  if s.«open» then { s with _reopen := true, «open» := false }
  else s.initiateOpening

/-- `onAfterRendering()` of `Toast.ts`: when `_reopen` is set, it resets
the flag and initiates opening; otherwise it does nothing. -/
def Toast.onAfterRendering (s : Toast) : Toast :=
  if s._reopen then Toast.initiateOpening { s with _reopen := false } else s

/-- `_ontransitionend()` of `Toast.ts`: while hovered it returns early;
otherwise it closes the toast by clearing `domRendered` and `open`. -/
def Toast.ontransitionend (s : Toast) : Toast :=
  if s.hover then s else { s with domRendered := false, «open» := false }

/-- `_onmouseover()` of `Toast.ts`. -/
def Toast.onmouseover (s : Toast) : Toast :=
  { s with hover := true }

/-- `_onmouseleave()` of `Toast.ts`. -/
def Toast.onmouseleave (s : Toast) : Toast :=
  { s with hover := false }

/-- The state invariant claimed for the toast: a pending re-show implies
the toast is closed, and an open toast has its DOM rendered. -/
def Toast.invariant (s : Toast) : Prop :=
  (s._reopen = true → s.«open» = false) ∧ (s.«open» = true → s.domRendered = true)

instance (s : Toast) : Decidable s.invariant := by
  unfold Toast.invariant
  infer_instance

/-- A sample open toast used to instantiate the hypotheses of the Toast
theorems: duration `9000`, open, not hovered, DOM rendered. -/
def Toast.sampleOpen : Toast :=
  { duration := 9000, «open» := true, hover := false, domRendered := true
    _reopen := false, pendingFrames := 0 }

/-- A sample closed toast: duration `100`, not hovered, nothing rendered. -/
def Toast.sampleClosed : Toast :=
  { duration := 100, «open» := false, hover := false, domRendered := false
    _reopen := false, pendingFrames := 0 }

/-- Modelled from the spec: the edit-in-place file-extension derivation of
the upload-collection item (the `UploadCollectionItem` implementation is
not among the sources; only its browser test is).  `lastIndexOfDot` is the
index of the last `.` character of a file name, if any. -/
def lastIndexOfDot : List Char → Option Nat
  | [] => none
  | c :: rest =>
    match lastIndexOfDot rest with
    | some j => some (j + 1)
    | none => if c = '.' then some 0 else none

/-- Modelled from the spec: the position where the extension of a file
name starts.  The extension is the substring after the last dot; a file
name whose only dot is the leading one (a hidden file such as
`.gitignore`) is treated as having no extension. -/
def fileExtensionStart (fileName : List Char) : Option Nat :=
  match lastIndexOfDot fileName with
  | some i => if 0 < i then some i else none
  | none => none

/-- Modelled from the spec: the derived file extension (the last dot and
everything after it), empty when there is no extension. -/
def fileExtension (fileName : List Char) : List Char :=
  match fileExtensionStart fileName with
  | some i => fileName.drop i
  | none => []

/-- Modelled from the spec: the base name shown in the edit input while an
upload-collection item is renamed in place — the file name with its
derived extension removed. -/
def editInputValue (fileName : List Char) : List Char :=
  match fileExtensionStart fileName with
  | some i => fileName.take i
  | none => fileName

/-- Modelled from the spec: confirming a rename appends the extension
derived from the current file name to the newly entered base name. -/
def confirmRename (fileName newBase : List Char) : List Char :=
  newBase ++ fileExtension fileName

/-- Modelled from the spec: the in-place editing state of an
upload-collection item — its file name, whether it is being edited, and
the current text of the edit input. -/
structure UploadCollectionItem where
  fileName : List Char
  editing : Bool
  inputValue : List Char
  deriving Repr, DecidableEq

/-- Modelled from the spec: entering edit mode loads the base name into
the edit input. -/
def UploadCollectionItem.startEditing (s : UploadCollectionItem) : UploadCollectionItem :=
  { s with editing := true, inputValue := editInputValue s.fileName }

/-- Modelled from the spec: typing into the edit input replaces its
text. -/
def UploadCollectionItem.setInputValue (s : UploadCollectionItem) (t : List Char) :
    UploadCollectionItem :=
  { s with inputValue := t }

/-- Modelled from the spec: confirming the rename leaves edit mode and
replaces the file name by the entered base name with the derived extension
appended. -/
def UploadCollectionItem.confirmEditing (s : UploadCollectionItem) : UploadCollectionItem :=
  { s with editing := false, fileName := confirmRename s.fileName s.inputValue }

/-- Modelled from the spec: activating the cancel button ends the edit
without touching the file name. -/
def UploadCollectionItem.cancelEditing (s : UploadCollectionItem) : UploadCollectionItem :=
  { s with editing := false }

/-- Modelled from the spec: the attributes and slots of the
`ui5-upload-collection` element that the claims are about (the
`UploadCollection` implementation is not among the sources; only its
browser test is) — its `accessible-name` attribute and the nodes slotted
into its `header`. -/
structure UploadCollection where
  accessibleName : String
  headerSlot : List String
  deriving Repr, DecidableEq

/-- Modelled from the spec: the bindings the upload collection places on
the inner `ui5-list` it renders. -/
structure InnerListBindings where
  accessibleName : String
  headerSlot : List String
  deriving Repr, DecidableEq

/-- Modelled from the spec: the upload collection forwards ARIA attributes
to the nested list — its `accessible-name` is passed through and its
`header` slot content is projected into the inner list's header. -/
def UploadCollection.innerList (uc : UploadCollection) : InnerListBindings :=
  { accessibleName := uc.accessibleName, headerSlot := uc.headerSlot }

/-- Modelled from the spec: the `mode` attribute values of the upload
collection exercised by its browser test. -/
inductive UploadCollectionMode where
  | None
  | SingleSelect
  | SingleSelectBegin
  | SingleSelectEnd
  | MultiSelect
  | Delete
  deriving Repr, DecidableEq

/-- Modelled from the spec: the outcome of clicking an item's delete
button — whether the `item-delete` event fired, and the collection's items
afterwards. -/
structure DeleteClickResult where
  itemDeleteFired : Bool
  items : List (List Char)
  deriving Repr, DecidableEq

/-- Modelled from the spec: clicking the delete button of the item at
position `i` fires `item-delete`, after which the item is removed; the
`mode` attribute plays no part in the handling. -/
def onItemDeleteClick (mode : UploadCollectionMode) (items : List (List Char))
    (i : Nat) : DeleteClickResult :=
  match mode with
  | _ => { itemDeleteFired := true, items := items.eraseIdx i }

/-- C2: for every integer value of the `duration` property,
`effectiveDuration` returns `duration` itself when it is at least `500`,
and the minimum supported duration `500` when it is lower. -/
theorem toast_effectiveDuration_spec (s : Toast) :
    (500 ≤ s.duration → s.effectiveDuration = s.duration) ∧
    (s.duration < 500 → s.effectiveDuration = 500) := by
  constructor
  · intro h
    simp [Toast.effectiveDuration, not_lt.mpr h]
  · intro h
    simp [Toast.effectiveDuration, h]

/-- Witness for C2 at the sample states: duration `9000` is kept, duration
`100` is raised to `500`. -/
theorem toast_effectiveDuration_spec_witness :
    Toast.sampleOpen.effectiveDuration = 9000 ∧
    Toast.sampleClosed.effectiveDuration = 500 :=
  ⟨(toast_effectiveDuration_spec Toast.sampleOpen).1 (by decide),
   (toast_effectiveDuration_spec Toast.sampleClosed).2 (by decide)⟩

/-- The effective duration is never below the minimum supported duration
of `500` ms. -/
theorem toast_effectiveDuration_ge (s : Toast) : 500 ≤ s.effectiveDuration := by
  unfold Toast.effectiveDuration
  split
  · exact le_refl _
  · omega

/-- C3: while the toast is open, the computed `transition-duration` is
`min(effectiveDuration / 3, 1000)` milliseconds, and that value never
exceeds `1000` ms no matter how large `duration` is. -/
theorem toast_transitionDuration_capped (s : Toast) (h : s.«open» = true) :
    (s.styles).transitionDuration = some (min ((s.effectiveDuration : ℚ) / 3) 1000) ∧
    min ((s.effectiveDuration : ℚ) / 3) 1000 ≤ 1000 := by
  constructor
  · simp [Toast.styles, h]
  · exact min_le_right _ _

/-- Witness for C3 at the open sample toast (duration `9000`, so the cap
is reached: `9000 / 3 = 3000` is clipped to `1000`). -/
theorem toast_transitionDuration_capped_witness :
    (Toast.sampleOpen.styles).transitionDuration =
      some (min ((Toast.sampleOpen.effectiveDuration : ℚ) / 3) 1000) ∧
    min ((Toast.sampleOpen.effectiveDuration : ℚ) / 3) 1000 ≤ 1000 :=
  toast_transitionDuration_capped Toast.sampleOpen rfl

/-- C4: while the toast is open, the computed `transition-delay` is the
effective duration minus the transition duration, so delay plus duration
sums exactly to `effectiveDuration`, and the delay is never negative. -/
theorem toast_transitionDelay_complement (s : Toast) (h : s.«open» = true) :
    (s.styles).transitionDelay =
      some ((s.effectiveDuration : ℚ) - min ((s.effectiveDuration : ℚ) / 3) 1000) ∧
    ((s.effectiveDuration : ℚ) - min ((s.effectiveDuration : ℚ) / 3) 1000) +
      min ((s.effectiveDuration : ℚ) / 3) 1000 = (s.effectiveDuration : ℚ) ∧
    0 ≤ (s.effectiveDuration : ℚ) - min ((s.effectiveDuration : ℚ) / 3) 1000 := by
  refine ⟨by simp [Toast.styles, h], by ring, ?_⟩
  have h500 : (500 : ℚ) ≤ (s.effectiveDuration : ℚ) := by
    exact_mod_cast toast_effectiveDuration_ge s
  have hmin : min ((s.effectiveDuration : ℚ) / 3) 1000 ≤ (s.effectiveDuration : ℚ) / 3 :=
    min_le_left _ _
  linarith

/-- Witness for C4 at the open sample toast. -/
theorem toast_transitionDelay_complement_witness :
    (Toast.sampleOpen.styles).transitionDelay =
      some ((Toast.sampleOpen.effectiveDuration : ℚ) -
        min ((Toast.sampleOpen.effectiveDuration : ℚ) / 3) 1000) ∧
    ((Toast.sampleOpen.effectiveDuration : ℚ) -
        min ((Toast.sampleOpen.effectiveDuration : ℚ) / 3) 1000) +
      min ((Toast.sampleOpen.effectiveDuration : ℚ) / 3) 1000 =
        (Toast.sampleOpen.effectiveDuration : ℚ) ∧
    0 ≤ (Toast.sampleOpen.effectiveDuration : ℚ) -
      min ((Toast.sampleOpen.effectiveDuration : ℚ) / 3) 1000 :=
  toast_transitionDelay_complement Toast.sampleOpen rfl

/-- C5: calling `show()` on a closed toast initiates opening directly —
`domRendered` becomes `true`, no `_reopen` flag is touched, and the
animation-frame callback it requests sets `open` to `true`.  Calling
`show()` on an open toast instead sets `_reopen` and closes the toast
without initiating opening (`domRendered` and the pending frame requests
are untouched), and the next `onAfterRendering` then clears `_reopen` and
initiates opening again. -/
theorem toast_show_reshow (s : Toast) :
    (s.«open» = false →
      (s.show).domRendered = true ∧
      (s.show)._reopen = s._reopen ∧
      (s.show).«open» = s.«open» ∧
      (s.show).pendingFrames = s.pendingFrames + 1 ∧
      (s.show.frameCallback).«open» = true) ∧
    (s.«open» = true →
      (s.show)._reopen = true ∧
      (s.show).«open» = false ∧
      (s.show).domRendered = s.domRendered ∧
      (s.show).pendingFrames = s.pendingFrames ∧
      (s.show.onAfterRendering)._reopen = false ∧
      (s.show.onAfterRendering).domRendered = true ∧
      (s.show.onAfterRendering).pendingFrames = s.pendingFrames + 1) := by
  constructor
  · intro h
    simp [Toast.show, h, Toast.initiateOpening, Toast.frameCallback]
  · intro h
    simp [Toast.show, h, Toast.onAfterRendering, Toast.initiateOpening]

/-- Witness for C5: the closed branch at the closed sample toast and the
re-show branch at the open sample toast. -/
theorem toast_show_reshow_witness :
    ((Toast.sampleClosed.show).domRendered = true ∧
      (Toast.sampleClosed.show)._reopen = Toast.sampleClosed._reopen ∧
      (Toast.sampleClosed.show).«open» = Toast.sampleClosed.«open» ∧
      (Toast.sampleClosed.show).pendingFrames = Toast.sampleClosed.pendingFrames + 1 ∧
      (Toast.sampleClosed.show.frameCallback).«open» = true) ∧
    ((Toast.sampleOpen.show)._reopen = true ∧
      (Toast.sampleOpen.show).«open» = false ∧
      (Toast.sampleOpen.show).domRendered = Toast.sampleOpen.domRendered ∧
      (Toast.sampleOpen.show).pendingFrames = Toast.sampleOpen.pendingFrames ∧
      (Toast.sampleOpen.show.onAfterRendering)._reopen = false ∧
      (Toast.sampleOpen.show.onAfterRendering).domRendered = true ∧
      (Toast.sampleOpen.show.onAfterRendering).pendingFrames =
        Toast.sampleOpen.pendingFrames + 1) :=
  ⟨(toast_show_reshow Toast.sampleClosed).1 rfl,
   (toast_show_reshow Toast.sampleOpen).2 rfl⟩

/-- C6: `_ontransitionend` closes the toast — clearing both `domRendered`
and `open` while leaving everything else intact — exactly when `hover` is
`false`; when `hover` is `true` it leaves every field unchanged. -/
theorem toast_transitionend_effect (s : Toast) :
    (s.hover = false →
      s.ontransitionend = { s with domRendered := false, «open» := false }) ∧
    (s.hover = true → s.ontransitionend = s) := by
  constructor
  · intro h
    simp [Toast.ontransitionend, h]
  · intro h
    simp [Toast.ontransitionend, h]

/-- Witness for C6: the closing branch at the open sample toast and the
early-return branch at a hovered variant of it. -/
theorem toast_transitionend_effect_witness :
    Toast.sampleOpen.ontransitionend =
      { Toast.sampleOpen with domRendered := false, «open» := false } ∧
    Toast.ontransitionend { Toast.sampleOpen with hover := true } =
      { Toast.sampleOpen with hover := true } :=
  ⟨(toast_transitionend_effect Toast.sampleOpen).1 rfl,
   (toast_transitionend_effect { Toast.sampleOpen with hover := true }).2 rfl⟩

/-- C10 counterexample: the invariant is not maintained by every completed
operation.  Starting from the constructor state, the operation sequence
`show`, its animation-frame callback, `show`, `show`, animation-frame
callback (three `show()` calls with no `onAfterRendering` run between the
re-show and the second pending frame callback) ends in a state with
`_reopen = true` and `open = true`, violating the invariant right after
the completed frame callback. -/
theorem toast_invariant_counterexample :
    ¬ Toast.invariant
        (Toast.frameCallback (Toast.show (Toast.show
          (Toast.frameCallback (Toast.show Toast.init))))) := by
  decide

/-- C10 (amended): the constructor establishes the invariant
(`_reopen = true → open = false` and `open = true → domRendered = true`),
every synchronous operation of `Toast.ts` preserves it, and the
animation-frame callback preserves it under the additional precondition
that `_reopen` is already cleared and the DOM is rendered when the
callback fires; moreover `show` never sets `open` to `true`
synchronously — after `show` returns, `open` is always `false`. -/
theorem toast_invariant_preservation (s : Toast) :
    Toast.invariant Toast.init ∧
    (s.invariant → (s.show).invariant) ∧
    (s.invariant → (s.onAfterRendering).invariant) ∧
    (s.invariant → (s.initiateOpening).invariant) ∧
    (s.invariant → (s.ontransitionend).invariant) ∧
    (s.invariant → (s.onmouseover).invariant) ∧
    (s.invariant → (s.onmouseleave).invariant) ∧
    (s.invariant → s._reopen = false → s.domRendered = true →
      (s.frameCallback).invariant) ∧
    (s.show).«open» = false := by
  refine ⟨by decide, ?_, ?_, ?_, ?_, ?_, ?_, ?_, ?_⟩
  · intro h
    unfold Toast.show Toast.initiateOpening Toast.invariant at *
    split <;> simp_all
  · intro h
    unfold Toast.onAfterRendering Toast.initiateOpening Toast.invariant at *
    split <;> simp_all
  · intro h
    unfold Toast.initiateOpening Toast.invariant at *
    simp_all
  · intro h
    unfold Toast.ontransitionend Toast.invariant at *
    split <;> simp_all
  · intro h
    unfold Toast.onmouseover Toast.invariant at *
    simp_all
  · intro h
    unfold Toast.onmouseleave Toast.invariant at *
    simp_all
  · intro h hre hdom
    unfold Toast.frameCallback Toast.invariant at *
    split <;> simp_all
  · unfold Toast.show Toast.initiateOpening
    split <;> simp_all

/-- Witness for C10 (amended) at the open sample toast, discharging the
invariant and frame-callback preconditions there. -/
theorem toast_invariant_preservation_witness :
    Toast.invariant Toast.init ∧
    (Toast.sampleOpen.show).invariant ∧
    (Toast.sampleOpen.onAfterRendering).invariant ∧
    (Toast.sampleOpen.initiateOpening).invariant ∧
    (Toast.sampleOpen.ontransitionend).invariant ∧
    (Toast.sampleOpen.onmouseover).invariant ∧
    (Toast.sampleOpen.onmouseleave).invariant ∧
    (Toast.sampleOpen.frameCallback).invariant ∧
    (Toast.sampleOpen.show).«open» = false :=
  have h := toast_invariant_preservation Toast.sampleOpen
  ⟨h.1, h.2.1 (by decide), h.2.2.1 (by decide), h.2.2.2.1 (by decide),
   h.2.2.2.2.1 (by decide), h.2.2.2.2.2.1 (by decide),
   h.2.2.2.2.2.2.1 (by decide),
   h.2.2.2.2.2.2.2.1 (by decide) (by decide) (by decide),
   h.2.2.2.2.2.2.2.2⟩

/-- C1: in edit-in-place mode, the edit input holds exactly the file name
with the derived extension removed (base name and extension recompose the
file name), confirming a rename appends the derived extension to the newly
entered base name, the extension is the substring from the last dot when
that dot is not the leading character, and a name whose only dot is the
leading one has no extension. -/
theorem uploadItem_edit_extension (old newBase : List Char) :
    editInputValue old ++ fileExtension old = old ∧
    confirmRename old newBase = newBase ++ fileExtension old ∧
    (∀ i, lastIndexOfDot old = some i → 0 < i → fileExtension old = old.drop i) ∧
    (lastIndexOfDot old = some 0 → fileExtension old = []) := by
  refine ⟨?_, rfl, ?_, ?_⟩
  · unfold editInputValue fileExtension
    cases h : fileExtensionStart old <;> simp [h]
  · intro i h hi
    simp [fileExtension, fileExtensionStart, h, hi]
  · intro h
    simp [fileExtension, fileExtensionStart, h]

/-- Witness for C1 at the file names of the browser test: renaming
`newFileName.newExtension` by entering `newFileName2` yields
`newFileName2.newExtension`, the extension of `newFileName.newExtension`
is `.newExtension` (the substring from its last dot, index 11), and
`.gitignore` has no extension. -/
theorem uploadItem_edit_extension_witness :
    confirmRename "newFileName.newExtension".data "newFileName2".data =
      "newFileName2.newExtension".data ∧
    fileExtension "newFileName.newExtension".data = ".newExtension".data ∧
    fileExtension ".gitignore".data = [] :=
  ⟨((uploadItem_edit_extension "newFileName.newExtension".data
      "newFileName2".data).2.1).trans (by decide),
   ((uploadItem_edit_extension "newFileName.newExtension".data []).2.2.1
      11 (by decide) (by decide)).trans (by decide),
   (uploadItem_edit_extension ".gitignore".data []).2.2.2 (by decide)⟩

/-- C9: for every upload-collection item and every text typed into the
edit input, cancelling the edit ends editing and leaves the item's file
name exactly as it was before editing began. -/
theorem uploadItem_cancel_preserves_fileName (s : UploadCollectionItem) (t : List Char) :
    (((s.startEditing).setInputValue t).cancelEditing).fileName = s.fileName ∧
    (((s.startEditing).setInputValue t).cancelEditing).editing = false :=
  ⟨rfl, rfl⟩

/-- C7: the upload collection's `accessible-name` is forwarded unchanged
to the inner `ui5-list`, and the `header` slot content is projected into
the inner list's header. -/
theorem uploadCollection_forwards_accessibleName (uc : UploadCollection) :
    (uc.innerList).accessibleName = uc.accessibleName ∧
    (uc.innerList).headerSlot = uc.headerSlot :=
  ⟨rfl, rfl⟩

/-- C8: clicking an item's delete button fires `item-delete` and removes
the item from the collection's items, and the outcome is the same in every
mode (`Delete`, `None`, or any other). -/
theorem uploadCollection_delete_mode_independent (m m2 : UploadCollectionMode)
    (items : List (List Char)) (i : Nat) :
    onItemDeleteClick m items i = onItemDeleteClick m2 items i ∧
    (onItemDeleteClick m items i).itemDeleteFired = true ∧
    (i < items.length →
      (onItemDeleteClick m items i).items = items.eraseIdx i ∧
      (onItemDeleteClick m items i).items.length = items.length - 1) := by
  refine ⟨rfl, rfl, ?_⟩
  intro h
  refine ⟨rfl, ?_⟩
  have := List.length_eraseIdx_add_one h
  simp [onItemDeleteClick]
  omega

/-- Witness for C8 at the five-item collection of the browser test, in
`Delete` mode versus `None` mode: deleting the first item leaves four. -/
theorem uploadCollection_delete_mode_independent_witness :
    onItemDeleteClick UploadCollectionMode.Delete
        (List.map String.data ["a", "b", "c", "d", "e"]) 0 =
      onItemDeleteClick UploadCollectionMode.None
        (List.map String.data ["a", "b", "c", "d", "e"]) 0 ∧
    (onItemDeleteClick UploadCollectionMode.Delete
        (List.map String.data ["a", "b", "c", "d", "e"]) 0).items.length = 4 :=
  have h := uploadCollection_delete_mode_independent UploadCollectionMode.Delete
    UploadCollectionMode.None (List.map String.data ["a", "b", "c", "d", "e"]) 0
  ⟨h.1, ((h.2.2 (by decide)).2).trans (by decide)⟩
